import Mathlib

/-!
# Verification of the Threat Intelligence Manager

A shallow embedding of the threat-intelligence subsystem of the repository
(`threat_manager.py`, `processors/ai_processor.py`, `scrapers/cisa_scraper.py`)
together with proofs about its cache policy, merge/sort step, enrichment,
search and per-source fetch behaviour.

Modelling conventions:
* Python dicts holding threat records have a fixed key universe in this code
  base; they are embedded as a structure whose fields are `Option`-valued,
  with `dict.get(k, d)` embedded as `Option.getD`.
* Network / AI calls are external effects; each call site takes its outcome
  as an explicit argument (`Option` results, where `none` models an
  exception raised by the call and caught by the surrounding handler).
* `datetime.utcnow()` is passed in as an explicit clock value (`Nat`
  seconds for cache-age arithmetic, an ISO string where a timestamp is
  stored into a record).
* Python string lowercasing / whitespace stripping are embedded for the
  ASCII range (`Char.toLower`, `Char.isWhitespace`), which covers all strings
  occurring in this code base.
* The iteration order of a Python `set` is unspecified; `list(set(xs))` is
  embedded as `setList xs` for an arbitrary function `setList` constrained
  only by `SetListLike` (it enumerates the distinct elements of `xs` in
  some order).
-/

/-- A threat record: the dict produced by the scrapers, possibly carrying
the four enrichment fields added by `AIThreatProcessor.enrich_threat`. -/
structure Threat where
  feed_id : Option String := none
  source : Option String := none
  source_url : Option String := none
  title : Option String := none
  severity : Option String := none
  published_date : Option String := none
  fetched_date : Option String := none
  full_content : Option String := none
  tags : Option (List String) := none
  quick_summary : Option String := none
  iocs : Option (List String) := none
  affected_systems : Option (List String) := none
  recommendations : Option (List String) := none
deriving DecidableEq

/-- Mutable state of `ThreatIntelligenceManager`: `self.threat_cache` and
`self.last_fetch_time` (seconds since epoch, `none` = never fetched). -/
structure ManagerState where
  threat_cache : List Threat
  last_fetch_time : Option Nat
deriving DecidableEq

/-- `self.cache_duration = timedelta(hours=1)`, in seconds. -/
def cache_duration : Nat := 3600

/-! ## Python string primitives -/

/-- `str.lower()` (ASCII range). -/
def pyLower (s : String) : String := String.mk (s.toList.map Char.toLower)

/-- `str.strip()`: drop leading and trailing whitespace. -/
def pyStrip (s : String) : String :=
  String.mk (((s.toList.dropWhile Char.isWhitespace).reverse.dropWhile Char.isWhitespace).reverse)

/-- `str.split(sep)` for a single-character separator. -/
def splitOnCharAux (sep : Char) : List Char → List Char → List String
  | [], cur => [String.mk cur.reverse]
  | c :: cs, cur =>
    if c == sep then String.mk cur.reverse :: splitOnCharAux sep cs []
    else splitOnCharAux sep cs (c :: cur)

/-- `s.split(sep)` (Python, single-char separator). -/
def pySplit (sep : Char) (s : String) : List String := splitOnCharAux sep s.toList []

/-- `' '.join(xs)`. -/
def joinSpace : List String → String
  | [] => ""
  | [x] => x
  | x :: y :: xs => x ++ " " ++ joinSpace (y :: xs)

/-- Is `xs` an initial segment of `ys`? (over char lists). -/
def charsIsPrefixOf : List Char → List Char → Bool
  | [], _ => true
  | _ :: _, [] => false
  | x :: xs, y :: ys => x == y && charsIsPrefixOf xs ys

/-- Substring test on char lists: first argument occurs contiguously in
the second (the semantics of Python's `needle in haystack`). -/
def charsContains : List Char → List Char → Bool
  | xs, [] => xs.isEmpty
  | xs, y :: ys => charsIsPrefixOf xs (y :: ys) || charsContains xs ys

/-- Python's `needle in haystack` on strings. -/
def pyIn (needle haystack : String) : Bool :=
  charsContains needle.toList haystack.toList

/-- Lexicographic `≤` on char lists by code point: the comparison Python
uses on the `published_date` sort keys. -/
def charsLe : List Char → List Char → Bool
  | [], _ => true
  | _ :: _, [] => false
  | x :: xs, y :: ys =>
    if x.toNat < y.toNat then true
    else if y.toNat < x.toNat then false
    else charsLe xs ys

/-! ## The merge/sort step of `fetch_all_threats` -/

/-- The sort key `x.get('published_date', '')` of line 97, as a char list. -/
def dateKey (t : Threat) : List Char := (t.published_date.getD "").toList

/-- Insert a threat into a list that is already sorted by `published_date`
descending, before the first entry whose key is `≤` its own (the element
being inserted is the earlier one, matching a stable descending sort). -/
def insertByDateDesc (x : Threat) : List Threat → List Threat
  | [] => [x]
  | y :: ys =>
    if charsLe (dateKey y) (dateKey x) then x :: y :: ys
    else y :: insertByDateDesc x ys

/-- `all_threats.sort(key=lambda x: x.get('published_date', ''), reverse=True)`
(lines 96–99): a stable descending sort on the date key. -/
def sortByDateDesc : List Threat → List Threat
  | [] => []
  | x :: xs => insertByDateDesc x (sortByDateDesc xs)

/-! ## `ThreatIntelligenceManager` operations -/

/-- `self.scrapers` registry keys, in dict insertion order (lines 29–34). -/
def sourceNames : List String := ["CISA", "CERT-IN", "FBI", "BleepingComputer"]

/-- `_is_cache_valid` (lines 255–261): nonempty cache, a recorded fetch
time, and age strictly below `cache_duration`. -/
def is_cache_valid (now : Nat) (s : ManagerState) : Bool :=
  match s.last_fetch_time with
  | none => false
  | some t => !s.threat_cache.isEmpty && decide (now - t < cache_duration)

/-- The per-source enrichment loop of lines 74–87: when `use_ai` is set and
the source contributed items, each item is enriched; `enrich t = none`
models an exception escaping `enrich_threat`, in which case the original
item is kept (line 83). Otherwise the raw list passes through. -/
def processSource (use_ai : Bool) (enrich : Threat → Option Threat)
    (ts : List Threat) : List Threat :=
  if use_ai && !ts.isEmpty then ts.map (fun t => (enrich t).getD t) else ts

/-- One registered source's contribution to the fan-out (lines 68–93):
`fetches name limit = none` models `scraper.fetch_threats` raising, which
the per-source handler swallows (`continue`, line 93), so that source
contributes nothing. -/
def sourceContribution (fetches : String → Nat → Option (List Threat))
    (enrich : Threat → Option Threat) (limit_per_source : Nat) (use_ai : Bool)
    (name : String) : List Threat :=
  match fetches name limit_per_source with
  | none => []
  | some ts => processSource use_ai enrich ts

/-- The full fan-out loop of lines 65–93: every registered source in
registry order, concatenating the contributions. -/
def refreshThreats (fetches : String → Nat → Option (List Threat))
    (enrich : Threat → Option Threat) (limit_per_source : Nat) (use_ai : Bool) :
    List Threat :=
  sourceNames.foldl
    (fun acc name => acc ++ sourceContribution fetches enrich limit_per_source use_ai name)
    []

/-- `fetch_all_threats` (lines 46–110). Returns the result list and the
updated manager state. `hardFail = true` models an exception escaping the
refresh pass to the outer handler of line 108, which serves the previous
cache if nonempty, else `[]` (line 110), leaving the state unchanged. -/
def fetch_all_threats (fetches : String → Nat → Option (List Threat))
    (enrich : Threat → Option Threat) (now : Nat) (limit_per_source : Nat)
    (use_ai : Bool) (hardFail : Bool) (s : ManagerState) :
    List Threat × ManagerState :=
  if is_cache_valid now s then (s.threat_cache, s)
  else if hardFail then
    (if s.threat_cache.isEmpty then [] else s.threat_cache, s)
  else
    let sorted := sortByDateDesc (refreshThreats fetches enrich limit_per_source use_ai)
    (sorted, { threat_cache := sorted, last_fetch_time := some now })

/-- `fetch_threats_by_source` (lines 112–148): `self.scrapers.get(source)`
misses for an unregistered name, in which case the method logs and returns
`[]` (lines 126–128); a raising fetch is caught by the outer handler which
also returns `[]` (lines 146–148). The shared cache state is never touched. -/
def fetch_threats_by_source (fetches : String → Nat → Option (List Threat))
    (enrich : Threat → Option Threat) (source : String) (limit : Nat)
    (use_ai : Bool) (s : ManagerState) : List Threat × ManagerState :=
  if sourceNames.contains source then
    match fetches source limit with
    | none => ([], s)
    | some ts => (processSource use_ai enrich ts, s)
  else ([], s)

/-- `force_refresh` (lines 272–285): empty the cache, clear the timestamp,
then run `fetch_all_threats` (with its default `limit_per_source = 10`). -/
def force_refresh (fetches : String → Nat → Option (List Threat))
    (enrich : Threat → Option Threat) (now : Nat) (use_ai : Bool)
    (hardFail : Bool) (s : ManagerState) : List Threat × ManagerState :=
  let _ := s
  fetch_all_threats fetches enrich now 10 use_ai hardFail
    { threat_cache := [], last_fetch_time := none }

/-- The text-match test of lines 170–175: the (already lower-cased) query
is a substring of the lower-cased title, full content, or space-joined tag
list. -/
def threatTextMatch (query_lower : String) (t : Threat) : Bool :=
  pyIn query_lower (pyLower (t.title.getD "")) ||
  pyIn query_lower (pyLower (t.full_content.getD "")) ||
  pyIn query_lower (pyLower (joinSpace (t.tags.getD [])))

/-- The full matching rule of `search_threats` (lines 169–181): the text
match, then the optional exact case-insensitive severity filter. -/
def threatMatches (query : String) (severity : Option String) (t : Threat) : Bool :=
  threatTextMatch (pyLower query) t &&
  (match severity with
   | none => true
   | some sv => pyLower (t.severity.getD "") == pyLower sv)

/-- The loop body of lines 169–181: accumulate `t` when the query occurs in
one of the lower-cased fields and the optional severity filter agrees. -/
def searchFold (query_lower : String) (severity : Option String)
    (acc : List Threat) (t : Threat) : List Threat :=
  if threatTextMatch query_lower t then
    match severity with
    | some sv => if pyLower (t.severity.getD "") == pyLower sv then acc ++ [t] else acc
    | none => acc ++ [t]
  else acc

/-- `search_threats` (lines 150–188): refresh first if the cache is empty
(line 163–164, with `fetch_all_threats`'s defaults `limit=10`, `use_ai=True`),
then scan the cache accumulating matches in cache order. -/
def search_threats (fetches : String → Nat → Option (List Threat))
    (enrich : Threat → Option Threat) (now : Nat) (hardFail : Bool)
    (query : String) (severity : Option String) (s : ManagerState) :
    List Threat × ManagerState :=
  let s1 := if s.threat_cache.isEmpty then
      (fetch_all_threats fetches enrich now 10 true hardFail s).2
    else s
  (s1.threat_cache.foldl (searchFold (pyLower query) severity) [], s1)

/-! ## `AIThreatProcessor` (`processors/ai_processor.py`)

Each OpenAI chat call is an external effect; its outcome is an explicit
`Option String` argument: `some r` is the returned message content, `none`
models "no client configured" or an exception from the call — in either
case the method falls back to its rule-based variant. -/

/-- `re.findall(r'CVE-\d{4}-\d{4,7}', content, re.IGNORECASE)` primitive:
take up to `n` leading ASCII digits, returning them and the remainder. -/
def takeDigits : Nat → List Char → List Char × List Char
  | 0, rest => ([], rest)
  | _ + 1, [] => ([], [])
  | n + 1, c :: cs =>
    if c.isDigit then
      let p := takeDigits n cs
      (c :: p.1, p.2)
    else ([], c :: cs)

/-- Try to match `CVE-\d{4}-\d{4,7}` (case-insensitive on the letters,
greedy on the final digit group) at the head of the char list, returning
the matched text and the remainder after the match. -/
def matchCVEAt : List Char → Option (List Char × List Char)
  | c1 :: c2 :: c3 :: c4 :: rest =>
    if c1.toLower == 'c' && c2.toLower == 'v' && c3.toLower == 'e' && c4 == '-' then
      let p1 := takeDigits 4 rest
      if p1.1.length == 4 then
        match p1.2 with
        | c5 :: r2 =>
          if c5 == '-' then
            let p2 := takeDigits 7 r2
            if decide (4 ≤ p2.1.length) then
              some (c1 :: c2 :: c3 :: c4 :: (p1.1 ++ c5 :: p2.1), p2.2)
            else none
          else none
        | [] => none
      else none
    else none
  | _ => none

/-- Left-to-right non-overlapping scan of `re.findall`; the fuel argument
bounds the recursion and is instantiated with the input length (each step
consumes at least one character, so the fuel never runs out). -/
def cveScanAux : Nat → List Char → List String
  | 0, _ => []
  | _ + 1, [] => []
  | fuel + 1, c :: cs =>
    match matchCVEAt (c :: cs) with
    | some (m, rest) => String.mk m :: cveScanAux fuel rest
    | none => cveScanAux fuel cs

/-- All matches of `CVE-\d{4}-\d{4,7}` in a string, in occurrence order. -/
def cveFindall (s : String) : List String := cveScanAux s.length s.toList

/-- Well-formedness of an embedding of `list(set(xs))` for string lists:
it enumerates exactly the distinct elements of `xs`, in some order that
the Python semantics leaves unspecified. -/
def SetListLike (setList : List String → List String) : Prop :=
  ∀ xs : List String, (setList xs).Perm xs.dedup

/-- `_fallback_summary` (lines 246–252). -/
def fallback_summary (t : Threat) : String :=
  t.source.getD "Unknown source" ++ " reports a " ++ t.severity.getD "unknown" ++
    " severity threat: " ++ t.title.getD "Unknown threat" ++
    ". Immediate review recommended for security teams."

/-- `_fallback_iocs` (lines 254–264): regex-scan `full_content + ' ' + title`
for CVE ids, dedup through a `set`, truncate to 5. -/
def fallback_iocs (setList : List String → List String) (t : Threat) : List String :=
  let content := t.full_content.getD "" ++ " " ++ t.title.getD ""
  let cves := cveFindall content
  (setList cves).take 5

/-- The fixed product vocabulary of `_fallback_affected_systems` (271–275). -/
def commonSystems : List String :=
  ["Windows", "Linux", "macOS", "iOS", "Android",
   "Chrome", "Firefox", "Safari", "Edge",
   "Apache", "nginx", "IIS", "MySQL", "PostgreSQL"]

/-- `_fallback_affected_systems` (lines 266–281). -/
def fallback_affected_systems (t : Threat) : List String :=
  let content := pyLower (t.title.getD "" ++ " " ++ t.full_content.getD "")
  let systems := commonSystems.filter (fun sys => pyIn (pyLower sys) content)
  if systems.isEmpty then ["Multiple systems potentially affected"] else systems.take 5

/-- `_fallback_recommendations` (lines 283–297). -/
def fallback_recommendations (t : Threat) : List String :=
  let severity := t.severity.getD "medium"
  let base := ["Review security logs for signs of compromise",
               "Ensure all systems are patched to the latest versions",
               "Monitor network traffic for suspicious activity"]
  let recs := if severity == "critical" || severity == "high" then
      "Implement emergency security measures immediately" ::
        (base ++ ["Consider temporary isolation of affected systems"])
    else base
  recs.take 5

/-- `generate_quick_summary` (lines 36–75). -/
def generate_quick_summary (resp : Option String) (t : Threat) : String :=
  match resp with
  | none => fallback_summary t
  | some r => pyStrip r

/-- Shared shape of the "one item per line" parsing in `extract_iocs` and
`identify_affected_systems`: split on newlines, strip each line, keep the
nonempty ones. -/
def strippedLines (txt : String) : List String :=
  ((pySplit '\n' txt).map pyStrip).filter (fun l => !(l == ""))

/-- `extract_iocs` (lines 77–120). -/
def extract_iocs (resp : Option String) (setList : List String → List String)
    (t : Threat) : List String :=
  match resp with
  | none => fallback_iocs setList t
  | some r =>
    let iocs_text := pyStrip r
    if pyLower iocs_text == "none" then []
    else (strippedLines iocs_text).take 10

/-- `identify_affected_systems` (lines 122–165). -/
def identify_affected_systems (resp : Option String) (t : Threat) : List String :=
  match resp with
  | none => fallback_affected_systems t
  | some r =>
    let systems_text := pyStrip r
    if pyLower systems_text == "not specified" then ["Not specified in alert"]
    else (strippedLines systems_text).take 5

/-- The characters stripped by `line.lstrip('0123456789.-•')` (line 207). -/
def bulletChars : List Char :=
  ['0', '1', '2', '3', '4', '5', '6', '7', '8', '9', '.', '-', '•']

/-- Should a stripped line of the AI recommendation response be kept?
(line 205: nonempty and starting with a digit, `-` or `•`). -/
def recLineKeep (line : String) : Bool :=
  !(line == "") &&
  (match line.toList with
   | [] => false
   | c :: _ => c.isDigit || c == '-' || c == '•')

/-- `generate_recommendations` (lines 167–216). -/
def generate_recommendations (resp : Option String) (t : Threat) : List String :=
  match resp with
  | none => fallback_recommendations t
  | some r =>
    let recs_text := pyStrip r
    (((pySplit '\n' recs_text).map pyStrip).filterMap
      (fun line =>
        if recLineKeep line then
          let rcd := pyStrip (String.mk (line.toList.dropWhile (fun c => bulletChars.contains c)))
          if rcd == "" then none else some rcd
        else none)).take 5

/-- The four chat-call outcomes consumed by one `enrich_threat` run. -/
structure AIOutcomes where
  summaryResp : Option String
  iocsResp : Option String
  systemsResp : Option String
  recsResp : Option String

/-- `enrich_threat` (lines 218–242): copy the dict and add the four
enrichment keys; `hardFail = true` models an exception escaping one of the
sub-calls to the handler of line 240, which returns the original threat. -/
def enrich_threat (ai : AIOutcomes) (setList : List String → List String)
    (hardFail : Bool) (t : Threat) : Threat :=
  if hardFail then t
  else
    { t with
      quick_summary := some (generate_quick_summary ai.summaryResp t),
      iocs := some (extract_iocs ai.iocsResp setList t),
      affected_systems := some (identify_affected_systems ai.systemsResp t),
      recommendations := some (generate_recommendations ai.recsResp t) }

/-! ## `CISAScraper` (`scrapers/cisa_scraper.py`) -/

/-- One feedparser entry as consumed by `_fetch_from_rss` (dict-like,
`entry.get` embedded as `Option.getD`). -/
structure FeedEntry where
  entryId : Option String := none
  link : Option String := none
  title : Option String := none
  published : Option String := none
  summary : Option String := none
deriving DecidableEq

/-- `self.base_url` of the CISA scraper. -/
def cisaBaseUrl : String := "https://www.cisa.gov"

/-- `_determine_severity` (lines 100–111). -/
def cisaDetermineSeverity (text : String) : String :=
  let text_lower := pyLower text
  if ["critical", "emergency", "zero-day", "urgent"].any (fun w => pyIn w text_lower) then
    "critical"
  else if ["high", "important", "severe"].any (fun w => pyIn w text_lower) then "high"
  else if ["medium", "moderate"].any (fun w => pyIn w text_lower) then "medium"
  else "low"

/-- The keyword vocabulary of `_extract_tags` (lines 132–136). -/
def cisaTagKeywords : List String :=
  ["vulnerability", "malware", "ransomware", "phishing",
   "exploit", "patch", "cve", "dos", "ddos", "breach",
   "authentication", "encryption", "firewall", "network"]

/-- `_extract_tags` (lines 126–142). -/
def cisaExtractTags (text : String) : List String :=
  let text_lower := pyLower text
  (cisaTagKeywords.filter (fun k => pyIn k text_lower)).take 5

/-- `_parse_date` (lines 113–124) on the string `entry.get('published', '')`
(strings have no `timetuple`, so a nonempty string passes through). -/
def cisaParseDate (now : String) (date_str : String) : String :=
  if date_str == "" then now else date_str

/-- `s.split('/')[-1]`. -/
def lastSlashSegment (s : String) : String := (pySplit '/' s).getLastD ""

/-- The threat dict built per RSS entry in `_fetch_from_rss` (lines 60–70);
`now` is `datetime.utcnow().isoformat()`. -/
def cisaEntryToThreat (now : String) (e : FeedEntry) : Threat :=
  { feed_id := some ("cisa_" ++ lastSlashSegment (e.entryId.getD "")),
    source := some "CISA",
    source_url := some (e.link.getD cisaBaseUrl),
    title := some (e.title.getD "Untitled Alert"),
    severity := some (cisaDetermineSeverity (e.title.getD "")),
    published_date := some (cisaParseDate now (e.published.getD "")),
    fetched_date := some now,
    full_content := some (e.summary.getD ""),
    tags := some (cisaExtractTags (e.title.getD "" ++ " " ++ e.summary.getD "")) }

/-- `_get_fallback_data` (lines 144–169): the fixed two-item sample list. -/
def cisa_fallback_data (now : String) : List Threat :=
  [{ feed_id := some "cisa_mock_001",
     source := some "CISA",
     source_url := some "https://www.cisa.gov/cybersecurity-advisories",
     title := some "Critical Vulnerability in Widely Used Software",
     severity := some "critical",
     published_date := some now,
     fetched_date := some now,
     full_content := some "CISA has identified a critical vulnerability affecting multiple systems. Immediate action recommended.",
     tags := some ["vulnerability", "critical", "patch"] },
   { feed_id := some "cisa_mock_002",
     source := some "CISA",
     source_url := some "https://www.cisa.gov/cybersecurity-advisories",
     title := some "Ransomware Campaign Targeting Healthcare Sector",
     severity := some "high",
     published_date := some now,
     fetched_date := some now,
     full_content := some "CISA warns of active ransomware campaign specifically targeting healthcare organizations.",
     tags := some ["ransomware", "healthcare", "malware"] }]

/-- Outcome of one `CISAScraper.fetch_threats` run.
* `rss entries`: `feedparser.parse` yielded this entry list (possibly empty
  — e.g. a network outage, which feedparser reports as an empty feed).
* `rssFailed`: an exception inside `_fetch_from_rss` was caught at its own
  handler (lines 75–77), which returns `[]`; the subsequent `_fetch_from_web`
  attempt returns `[]` on both its success path (the mock, line 94) and its
  error path (line 98).
* `hardFail`: an exception escaped to `fetch_threats`' outer handler
  (lines 49–51). -/
inductive CISAOutcome where
  | rss (entries : List FeedEntry)
  | rssFailed
  | hardFail
deriving DecidableEq

/-- `CISAScraper.fetch_threats` (lines 26–51). The RSS entries are sliced
to `limit` (line 59); when the RSS path yields nothing the web fallback
contributes `[]`; the outer handler returns the fallback data untruncated. -/
def cisa_fetch_threats (now : String) (o : CISAOutcome) (limit : Nat) : List Threat :=
  match o with
  | .hardFail => cisa_fallback_data now
  | .rssFailed => []
  | .rss entries =>
    let threats := (entries.take limit).map (cisaEntryToThreat now)
    if threats.isEmpty then [] else threats

/-! ## Concrete records and environments used in the closed statements -/

/-- A sample cached threat (shape as produced by a scraper). -/
def tRansom : Threat :=
  { feed_id := some "cisa_1", source := some "CISA",
    source_url := some "https://www.cisa.gov/x",
    title := some "Ransomware Gang Activity Observed", severity := some "critical",
    published_date := some "2024-05-01T00:00:00",
    fetched_date := some "2024-05-02T00:00:00",
    full_content := some "Active ransomware campaign.", tags := some ["ransomware"] }

/-- A sample threat with a later publication date and no query keyword. -/
def tPatch : Threat :=
  { feed_id := some "fbi_1", source := some "FBI",
    source_url := some "https://www.fbi.gov/x",
    title := some "Routine Update Notes", severity := some "low",
    published_date := some "2024-06-01T00:00:00",
    fetched_date := some "2024-06-02T00:00:00",
    full_content := some "Scheduled maintenance notes.", tags := some [] }

/-- A sample threat whose dict has no `published_date` key. -/
def tNoDate : Threat :=
  { feed_id := some "bc_1", source := some "BleepingComputer",
    source_url := some "https://www.bleepingcomputer.com/x",
    title := some "Undated Advisory", severity := some "medium",
    fetched_date := some "2024-06-02T00:00:00",
    full_content := some "No date given.", tags := some [] }

/-- Fetch environment in which every scraper call raises. -/
def fetchesNone : String → Nat → Option (List Threat) := fun _ _ => none

/-- Fetch environment with some concrete per-source results. -/
def fetchesDemo : String → Nat → Option (List Threat) := fun name _ =>
  if name == "CISA" then some [tRansom, tNoDate]
  else if name == "FBI" then some [tPatch]
  else some []

/-- Fetch environment in which every scraper call succeeds with no items. -/
def fetchesEmpty : String → Nat → Option (List Threat) := fun _ _ => some []

/-- Enrichment environment in which `enrich_threat` always raises. -/
def enrichNone : Threat → Option Threat := fun _ => none

/-- A legitimate `list(set(·))` enumeration order that reverses first-occurrence
order (Python's set iteration order is hash-based and unspecified). -/
def setListRev : List String → List String := fun l => l.dedup.reverse

/-- A threat whose content mentions two CVE identifiers in a fixed order. -/
def tCVE : Threat :=
  { title := some "Advisory",
    full_content := some "See CVE-2024-0001 and CVE-2024-0002 for details." }

/-! ## Order lemmas for the date-key comparison -/

theorem charsLe_nil_right : ∀ {l : List Char}, charsLe l [] = true → l = []
  | [], _ => rfl
  | _ :: _, h => by simp [charsLe] at h

theorem charsLe_cons (x y : Char) (xs ys : List Char) :
    charsLe (x :: xs) (y :: ys) =
      (decide (x.toNat < y.toNat) || (decide (x.toNat = y.toNat) && charsLe xs ys)) := by
  simp only [charsLe]
  rcases Nat.lt_trichotomy x.toNat y.toNat with h | h | h
  · simp [h]
  · simp [h, Nat.lt_irrefl]
  · have h1 : ¬ x.toNat < y.toNat := Nat.lt_asymm h
    have h2 : x.toNat ≠ y.toNat := Nat.ne_of_gt h
    simp [h, h1, h2]

theorem charsLe_total : ∀ a b : List Char, charsLe a b = true ∨ charsLe b a = true
  | [], _ => Or.inl rfl
  | _ :: _, [] => Or.inr rfl
  | x :: xs, y :: ys => by
    rw [charsLe_cons, charsLe_cons]
    simp only [Bool.or_eq_true, Bool.and_eq_true, decide_eq_true_eq]
    rcases Nat.lt_trichotomy x.toNat y.toNat with h | h | h
    · exact Or.inl (Or.inl h)
    · rcases charsLe_total xs ys with hr | hr
      · exact Or.inl (Or.inr ⟨h, hr⟩)
      · exact Or.inr (Or.inr ⟨h.symm, hr⟩)
    · exact Or.inr (Or.inl h)

theorem charsLe_trans : ∀ a b c : List Char,
    charsLe a b = true → charsLe b c = true → charsLe a c = true
  | [], _, _, _, _ => rfl
  | _ :: _, [], _, h, _ => by simp [charsLe] at h
  | _ :: _, _ :: _, [], _, h => by simp [charsLe] at h
  | x :: xs, y :: ys, z :: zs, h1, h2 => by
    rw [charsLe_cons] at h1 h2 ⊢
    simp only [Bool.or_eq_true, Bool.and_eq_true, decide_eq_true_eq] at h1 h2 ⊢
    rcases h1 with h1 | ⟨h1e, h1r⟩ <;> rcases h2 with h2 | ⟨h2e, h2r⟩
    · exact Or.inl (Nat.lt_trans h1 h2)
    · exact Or.inl (h2e ▸ h1)
    · exact Or.inl (h1e ▸ h2)
    · exact Or.inr ⟨h1e.trans h2e, charsLe_trans xs ys zs h1r h2r⟩

/-! ## Lemmas about the descending insertion sort -/

theorem mem_insertByDateDesc (x z : Threat) :
    ∀ l : List Threat, z ∈ insertByDateDesc x l → z = x ∨ z ∈ l
  | [] => by simp [insertByDateDesc]
  | y :: ys => by
    simp only [insertByDateDesc]
    split
    · intro h
      simpa using List.mem_cons.mp h
    · intro h
      rcases List.mem_cons.mp h with h | h
      · exact Or.inr (by simp [h])
      · rcases mem_insertByDateDesc x z ys h with h | h
        · exact Or.inl h
        · exact Or.inr (by simp [h])

theorem pairwise_insertByDateDesc (x : Threat) :
    ∀ l : List Threat,
      l.Pairwise (fun a b => charsLe (dateKey b) (dateKey a) = true) →
      (insertByDateDesc x l).Pairwise (fun a b => charsLe (dateKey b) (dateKey a) = true)
  | [], _ => by simp [insertByDateDesc]
  | y :: ys, h => by
    rcases List.pairwise_cons.mp h with ⟨hy, hys⟩
    simp only [insertByDateDesc]
    split
    case isTrue hxy =>
      refine List.pairwise_cons.mpr ⟨?_, h⟩
      intro z hz
      rcases List.mem_cons.mp hz with rfl | hz
      · exact hxy
      · exact charsLe_trans _ _ _ (hy z hz) hxy
    case isFalse hxy =>
      refine List.pairwise_cons.mpr ⟨?_, pairwise_insertByDateDesc x ys hys⟩
      intro z hz
      rcases mem_insertByDateDesc x z ys hz with hzx | hz
      · subst hzx
        rcases charsLe_total (dateKey y) (dateKey z) with hc | hc
        · exact absurd hc hxy
        · exact hc
      · exact hy z hz

theorem pairwise_sortByDateDesc :
    ∀ l : List Threat,
      (sortByDateDesc l).Pairwise (fun a b => charsLe (dateKey b) (dateKey a) = true)
  | [] => List.Pairwise.nil
  | x :: xs => pairwise_insertByDateDesc x _ (pairwise_sortByDateDesc xs)

theorem length_insertByDateDesc (x : Threat) :
    ∀ l : List Threat, (insertByDateDesc x l).length = l.length + 1
  | [] => rfl
  | y :: ys => by
    simp only [insertByDateDesc]
    split
    · rfl
    · simp [length_insertByDateDesc x ys]

theorem length_sortByDateDesc :
    ∀ l : List Threat, (sortByDateDesc l).length = l.length
  | [] => rfl
  | x :: xs => by
    simp [sortByDateDesc, length_insertByDateDesc, length_sortByDateDesc xs]

/-! ## C5 and C8: cache-hit behaviour and forced refresh -/

/-- C5: while the cache is populated and not yet stale, `fetch_all_threats`
returns the cached list and leaves the state untouched, for every fetch /
enrichment environment (hence no source is consulted); consequently a
second call within the validity window yields the same list. -/
theorem fetchAll_cache_hit
    (fetches fetches2 : String → Nat → Option (List Threat))
    (enrich enrich2 : Threat → Option Threat)
    (now now2 limit limit2 : Nat) (use_ai use_ai2 hardFail hardFail2 : Bool)
    (s : ManagerState)
    (h : is_cache_valid now s = true) (h2 : is_cache_valid now2 s = true) :
    fetch_all_threats fetches enrich now limit use_ai hardFail s = (s.threat_cache, s) ∧
    (fetch_all_threats fetches2 enrich2 now2 limit2 use_ai2 hardFail2 s).1 =
      (fetch_all_threats fetches enrich now limit use_ai hardFail s).1 := by
  constructor
  · simp [fetch_all_threats, h]
  · simp [fetch_all_threats, h, h2]

theorem fetchAll_cache_hit_witness :
    is_cache_valid 200 { threat_cache := [tRansom], last_fetch_time := some 100 } = true ∧
    (fetch_all_threats fetchesNone enrichNone 200 10 true false
        { threat_cache := [tRansom], last_fetch_time := some 100 } =
      ([tRansom], { threat_cache := [tRansom], last_fetch_time := some 100 }) ∧
     (fetch_all_threats fetchesDemo enrichNone 300 7 false true
        { threat_cache := [tRansom], last_fetch_time := some 100 }).1 =
      (fetch_all_threats fetchesNone enrichNone 200 10 true false
        { threat_cache := [tRansom], last_fetch_time := some 100 }).1) :=
  ⟨by decide,
   fetchAll_cache_hit fetchesNone fetchesDemo enrichNone enrichNone 200 300 10 7
     true false false true { threat_cache := [tRansom], last_fetch_time := some 100 }
     (by decide) (by decide)⟩

theorem foldl_append_contrib (g : String → List Threat) :
    ∀ (names : List String) (acc : List Threat),
      names.foldl (fun a n => a ++ g n) acc = acc ++ (names.map g).flatten
  | [], acc => by simp
  | n :: ns, acc => by
    simp [foldl_append_contrib g ns, List.append_assoc]

/-- C8: `force_refresh` ignores the existing state entirely: it resets the
cache, and (in the absence of an escaping exception) always performs the
full fan-out over all four registered sources, re-sorting and re-stamping
the cache — even if the incoming cache was still fresh. -/
theorem forceRefresh_full_fanout
    (fetches : String → Nat → Option (List Threat)) (enrich : Threat → Option Threat)
    (now : Nat) (use_ai : Bool) (s : ManagerState) :
    force_refresh fetches enrich now use_ai false s =
      (sortByDateDesc
        (sourceContribution fetches enrich 10 use_ai "CISA" ++
         (sourceContribution fetches enrich 10 use_ai "CERT-IN" ++
          (sourceContribution fetches enrich 10 use_ai "FBI" ++
           sourceContribution fetches enrich 10 use_ai "BleepingComputer"))),
       { threat_cache := sortByDateDesc
            (sourceContribution fetches enrich 10 use_ai "CISA" ++
             (sourceContribution fetches enrich 10 use_ai "CERT-IN" ++
              (sourceContribution fetches enrich 10 use_ai "FBI" ++
               sourceContribution fetches enrich 10 use_ai "BleepingComputer"))),
         last_fetch_time := some now }) := by
  simp [force_refresh, fetch_all_threats, is_cache_valid, refreshThreats, sourceNames,
    List.append_assoc]

/-! ## C1: total-outage behaviour of `fetch_all_threats` -/

/-- C1 counterexample: the cache is stale and nonempty, every source fails
(the per-source handler swallows each failure), so the refresh pass yields
zero items — yet `fetch_all_threats` returns `[]` and overwrites the
previously cached item with the empty list, contrary to the claim that the
previous cache contents are returned. -/
theorem fetchAll_total_outage_cex :
    fetch_all_threats fetchesNone enrichNone 7200 10 true false
        { threat_cache := [tRansom], last_fetch_time := some 0 } =
      ([], { threat_cache := [], last_fetch_time := some 7200 }) ∧
    ([tRansom] : List Threat) ≠ [] := by
  constructor
  · decide
  · decide

/-- C1 (amended): when the refresh pass itself runs to completion with zero
total items, `fetch_all_threats` returns the empty list and replaces the
cache with it, even if a previous non-empty cache existed; the previous
cache contents are served (state unchanged) only when an exception escapes
the refresh pass to the outer handler — and an empty list only when, in
addition, no previous cache exists. -/
theorem fetchAll_zero_items
    (fetches : String → Nat → Option (List Threat)) (enrich : Threat → Option Threat)
    (now limit : Nat) (use_ai : Bool) (s : ManagerState)
    (hv : is_cache_valid now s = false)
    (hz : refreshThreats fetches enrich limit use_ai = []) :
    fetch_all_threats fetches enrich now limit use_ai false s =
      ([], { threat_cache := [], last_fetch_time := some now }) ∧
    fetch_all_threats fetches enrich now limit use_ai true s =
      ((if s.threat_cache.isEmpty then [] else s.threat_cache), s) := by
  constructor
  · simp [fetch_all_threats, hv, hz, sortByDateDesc]
  · simp [fetch_all_threats, hv]

theorem fetchAll_zero_items_witness :
    is_cache_valid 7200 { threat_cache := [tRansom], last_fetch_time := some 0 } = false ∧
    refreshThreats fetchesNone enrichNone 10 true = [] ∧
    (fetch_all_threats fetchesNone enrichNone 7200 10 true false
        { threat_cache := [tRansom], last_fetch_time := some 0 } =
      ([], { threat_cache := [], last_fetch_time := some 7200 }) ∧
     fetch_all_threats fetchesNone enrichNone 7200 10 true true
        { threat_cache := [tRansom], last_fetch_time := some 0 } =
      ((if ([tRansom] : List Threat).isEmpty then []
        else ([tRansom] : List Threat)),
       { threat_cache := [tRansom], last_fetch_time := some 0 })) :=
  ⟨by decide, by decide,
   fetchAll_zero_items fetchesNone enrichNone 7200 10 true
     { threat_cache := [tRansom], last_fetch_time := some 0 } (by decide) (by decide)⟩

/-! ## C2: unknown source names in `fetch_threats_by_source` -/

/-- C2 counterexample: requesting the unregistered source `"Unknown"`
yields the plain empty list with the state untouched — byte-for-byte the
same result as a successful fetch from the registered source `"CISA"` that
happens to return no items. No `SourceNotFound` condition is surfaced:
the failure is a silent empty result. -/
theorem fetchBySource_unknown_cex :
    fetch_threats_by_source fetchesNone enrichNone "Unknown" 20 true
        { threat_cache := [tRansom], last_fetch_time := some 0 } =
      ([], { threat_cache := [tRansom], last_fetch_time := some 0 }) ∧
    fetch_threats_by_source fetchesEmpty enrichNone "CISA" 20 true
        { threat_cache := [tRansom], last_fetch_time := some 0 } =
      ([], { threat_cache := [tRansom], last_fetch_time := some 0 }) := by
  constructor
  · decide
  · decide

/-- C2 (amended): for every source name not present in the registry,
`fetch_threats_by_source` returns the empty list (logged only, with no
error condition distinguishable from a successful empty fetch), and the
shared threat cache and fetch timestamp are neither read nor modified
(the result is `([], s)` for every state `s` and fetch environment). -/
theorem fetchBySource_unknown_returns_empty
    (fetches : String → Nat → Option (List Threat)) (enrich : Threat → Option Threat)
    (src : String) (limit : Nat) (use_ai : Bool) (s : ManagerState)
    (h : sourceNames.contains src = false) :
    fetch_threats_by_source fetches enrich src limit use_ai s = ([], s) := by
  have h' : src ∉ sourceNames := by simpa using h
  simp [fetch_threats_by_source, h']

theorem fetchBySource_unknown_returns_empty_witness :
    sourceNames.contains "Unknown" = false ∧
    fetch_threats_by_source fetchesDemo enrichNone "Unknown" 20 true
        { threat_cache := [tRansom], last_fetch_time := some 0 } =
      ([], { threat_cache := [tRansom], last_fetch_time := some 0 }) :=
  ⟨by decide,
   fetchBySource_unknown_returns_empty fetchesDemo enrichNone "Unknown" 20 true
     { threat_cache := [tRansom], last_fetch_time := some 0 } (by decide)⟩

/-! ## C6: every refreshed result list is date-sorted, missing dates last -/

theorem fetch_all_refresh_eq
    (fetches : String → Nat → Option (List Threat)) (enrich : Threat → Option Threat)
    (now limit : Nat) (use_ai : Bool) (s : ManagerState)
    (hv : is_cache_valid now s = false) :
    fetch_all_threats fetches enrich now limit use_ai false s =
      (sortByDateDesc (refreshThreats fetches enrich limit use_ai),
       { threat_cache := sortByDateDesc (refreshThreats fetches enrich limit use_ai),
         last_fetch_time := some now }) := by
  simp [fetch_all_threats, hv]

/-- C6: whenever `fetch_all_threats` actually refreshes (cache invalid, no
escaping exception), the returned merged list is also the new cache entry,
it is sorted by `published_date` in descending lexicographic order, and any
item that follows an item with a missing `published_date` has the empty
sort key itself (missing dates sort as `""` and therefore appear last). -/
theorem fetchAll_refresh_sorted
    (fetches : String → Nat → Option (List Threat)) (enrich : Threat → Option Threat)
    (now limit : Nat) (use_ai : Bool) (s : ManagerState)
    (hv : is_cache_valid now s = false) :
    ((fetch_all_threats fetches enrich now limit use_ai false s).2).threat_cache =
        (fetch_all_threats fetches enrich now limit use_ai false s).1 ∧
    ((fetch_all_threats fetches enrich now limit use_ai false s).1).Pairwise
        (fun a b => charsLe (dateKey b) (dateKey a) = true) ∧
    (∀ x y : Threat,
      List.Sublist [x, y] (fetch_all_threats fetches enrich now limit use_ai false s).1 →
      x.published_date = none → dateKey y = []) := by
  rw [fetch_all_refresh_eq fetches enrich now limit use_ai s hv]
  refine ⟨rfl, pairwise_sortByDateDesc _, ?_⟩
  intro x y hsub hx
  have hp := List.Pairwise.sublist hsub (pairwise_sortByDateDesc _)
  rcases List.pairwise_cons.mp hp with ⟨hxy, _⟩
  have hxy := hxy y (by simp)
  have hkx : dateKey x = [] := by simp [dateKey, hx]
  rw [hkx] at hxy
  exact charsLe_nil_right hxy

theorem fetchAll_refresh_sorted_witness :
    is_cache_valid 0 { threat_cache := [], last_fetch_time := none } = false ∧
    (((fetch_all_threats fetchesDemo enrichNone 0 10 false false
          { threat_cache := [], last_fetch_time := none }).2).threat_cache =
        (fetch_all_threats fetchesDemo enrichNone 0 10 false false
          { threat_cache := [], last_fetch_time := none }).1 ∧
     ((fetch_all_threats fetchesDemo enrichNone 0 10 false false
          { threat_cache := [], last_fetch_time := none }).1).Pairwise
        (fun a b => charsLe (dateKey b) (dateKey a) = true) ∧
     (∀ x y : Threat,
        List.Sublist [x, y] (fetch_all_threats fetchesDemo enrichNone 0 10 false false
          { threat_cache := [], last_fetch_time := none }).1 →
        x.published_date = none → dateKey y = [])) :=
  ⟨by decide,
   fetchAll_refresh_sorted fetchesDemo enrichNone 0 10 false
     { threat_cache := [], last_fetch_time := none } (by decide)⟩

/-! ## C7: enrichment is strictly additive -/

theorem length_processSource (u : Bool) (e : Threat → Option Threat) (ts : List Threat) :
    (processSource u e ts).length = ts.length := by
  unfold processSource
  split <;> simp

theorem length_sourceContribution (f : String → Nat → Option (List Threat))
    (e : Threat → Option Threat) (lim : Nat) (u u2 : Bool) (n : String) :
    (sourceContribution f e lim u n).length = (sourceContribution f e lim u2 n).length := by
  unfold sourceContribution
  cases f n lim <;> simp [length_processSource]

theorem length_foldl_contrib (f : String → Nat → Option (List Threat))
    (e : Threat → Option Threat) (lim : Nat) (u u2 : Bool) :
    ∀ (names : List String) (acc acc2 : List Threat), acc.length = acc2.length →
      (names.foldl (fun a n => a ++ sourceContribution f e lim u n) acc).length =
      (names.foldl (fun a n => a ++ sourceContribution f e lim u2 n) acc2).length
  | [], _, _, h => by simpa using h
  | n :: ns, acc, acc2, h => by
    simp only [List.foldl_cons]
    exact length_foldl_contrib f e lim u u2 ns _ _
      (by simp [h, length_sourceContribution f e lim u u2 n])

theorem length_refreshThreats (f : String → Nat → Option (List Threat))
    (e : Threat → Option Threat) (lim : Nat) (u u2 : Bool) :
    (refreshThreats f e lim u).length = (refreshThreats f e lim u2).length :=
  length_foldl_contrib f e lim u u2 sourceNames [] [] rfl

/-- C7: enrichment is strictly additive. Every original raw field survives
`enrich_threat` with its original value (whatever the AI outcomes and the
escape flag); a whole-item enrichment failure returns the original threat
unchanged; in the manager's fan-out a per-item enrichment exception keeps
the original item; and turning AI enrichment on or off never changes the
number of items `fetch_all_threats` returns. -/
theorem enrich_additive :
    (∀ (ai : AIOutcomes) (setList : List String → List String) (hardFail : Bool) (t : Threat),
      (enrich_threat ai setList hardFail t).feed_id = t.feed_id ∧
      (enrich_threat ai setList hardFail t).source = t.source ∧
      (enrich_threat ai setList hardFail t).source_url = t.source_url ∧
      (enrich_threat ai setList hardFail t).title = t.title ∧
      (enrich_threat ai setList hardFail t).severity = t.severity ∧
      (enrich_threat ai setList hardFail t).published_date = t.published_date ∧
      (enrich_threat ai setList hardFail t).fetched_date = t.fetched_date ∧
      (enrich_threat ai setList hardFail t).full_content = t.full_content ∧
      (enrich_threat ai setList hardFail t).tags = t.tags) ∧
    (∀ (ai : AIOutcomes) (setList : List String → List String) (t : Threat),
      enrich_threat ai setList true t = t) ∧
    (∀ ts : List Threat, processSource true (fun _ => none) ts = ts) ∧
    (∀ (fetches : String → Nat → Option (List Threat)) (enrich : Threat → Option Threat)
       (now limit : Nat) (hardFail : Bool) (s : ManagerState),
      (fetch_all_threats fetches enrich now limit true hardFail s).1.length =
      (fetch_all_threats fetches enrich now limit false hardFail s).1.length) := by
  refine ⟨?_, ?_, ?_, ?_⟩
  · intro ai setList hardFail t
    cases hardFail <;> simp [enrich_threat]
  · intro ai setList t
    simp [enrich_threat]
  · intro ts
    unfold processSource
    split <;> simp
  · intro f e now lim hardFail s
    by_cases hv : is_cache_valid now s = true
    · simp [fetch_all_threats, hv]
    · have hv' : is_cache_valid now s = false := by simpa using hv
      cases hardFail
      · rw [fetch_all_refresh_eq f e now lim true s hv',
          fetch_all_refresh_eq f e now lim false s hv']
        simp only [length_sortByDateDesc]
        exact length_refreshThreats f e lim true false
      · simp [fetch_all_threats, hv']

/-! ## C9 and C10: the search matching rule -/

theorem searchFold_step (query : String) (sev : Option String) (acc : List Threat) (t : Threat) :
    searchFold (pyLower query) sev acc t =
      if threatMatches query sev t then acc ++ [t] else acc := by
  cases sev with
  | none => cases h : threatTextMatch (pyLower query) t <;> simp [searchFold, threatMatches, h]
  | some sv =>
    cases h : threatTextMatch (pyLower query) t
    · simp [searchFold, threatMatches, h]
    · cases h2 : (pyLower (t.severity.getD "") == pyLower sv) <;>
        simp [searchFold, threatMatches, h, h2]

theorem searchFold_filter (query : String) (sev : Option String) :
    ∀ (l acc : List Threat),
      l.foldl (searchFold (pyLower query) sev) acc = acc ++ l.filter (threatMatches query sev)
  | [], acc => by simp
  | t :: ts, acc => by
    rw [List.foldl_cons, searchFold_step, List.filter_cons]
    by_cases h : threatMatches query sev t
    · simp [h, searchFold_filter query sev ts, List.append_assoc]
    · simp [h, searchFold_filter query sev ts]

/-- C9: `search_threats` returns exactly the entries of the cache it scans
(the shared cache, refreshed first only when empty — i.e. the cache of the
returned state) that satisfy the matching rule: the lower-cased query is a
substring of the lower-cased title, full content, or space-joined tag list,
and, when a severity filter is given, the severity matches it
case-insensitively. `List.filter` keeps cache order. -/
theorem search_filter_spec (fetches : String → Nat → Option (List Threat))
    (enrich : Threat → Option Threat) (now : Nat) (hardFail : Bool)
    (query : String) (sev : Option String) (s : ManagerState) :
    (search_threats fetches enrich now hardFail query sev s).1 =
      ((search_threats fetches enrich now hardFail query sev s).2).threat_cache.filter
        (threatMatches query sev) := by
  simp only [search_threats]
  rw [searchFold_filter]
  simp

theorem charsContains_nil : ∀ h : List Char, charsContains [] h = true
  | [] => rfl
  | _ :: t => by simp [charsContains, charsIsPrefixOf]

theorem pyIn_empty (s : String) : pyIn "" s = true := by
  have h : "".toList = [] := rfl
  rw [pyIn, h]
  exact charsContains_nil _

theorem threatMatches_empty_query (sev : Option String) (t : Threat) :
    threatMatches "" sev t =
      (match sev with
       | none => true
       | some sv => pyLower (t.severity.getD "") == pyLower sv) := by
  have hl : pyLower "" = "" := rfl
  simp [threatMatches, threatTextMatch, hl, pyIn_empty]

/-- C10: with a non-empty cache, searching for the empty query returns the
entire cache in order (the empty string is a substring of every field), and
with a severity filter it returns exactly the cached threats of that
severity (case-insensitively), in cache order. -/
theorem search_empty_query (fetches : String → Nat → Option (List Threat))
    (enrich : Threat → Option Threat) (now : Nat) (hardFail : Bool)
    (s : ManagerState) (h : s.threat_cache ≠ []) :
    (search_threats fetches enrich now hardFail "" none s).1 = s.threat_cache ∧
    ∀ sv : String,
      (search_threats fetches enrich now hardFail "" (some sv) s).1 =
        s.threat_cache.filter (fun t => pyLower (t.severity.getD "") == pyLower sv) := by
  have hne : s.threat_cache.isEmpty = false := by
    simpa [List.isEmpty_iff] using h
  constructor
  · simp only [search_threats, hne, Bool.false_eq_true, if_false]
    rw [searchFold_filter]
    simp only [List.nil_append]
    refine List.filter_eq_self.mpr ?_
    intro a _
    rw [threatMatches_empty_query]
  · intro sv
    simp only [search_threats, hne, Bool.false_eq_true, if_false]
    rw [searchFold_filter]
    simp only [List.nil_append]
    refine List.filter_congr ?_
    intro a _
    rw [threatMatches_empty_query]

theorem search_empty_query_witness :
    ([tRansom, tPatch] : List Threat) ≠ [] ∧
    ((search_threats fetchesNone enrichNone 0 false "" none
        { threat_cache := [tRansom, tPatch], last_fetch_time := some 0 }).1 =
        [tRansom, tPatch] ∧
     ∀ sv : String,
       (search_threats fetchesNone enrichNone 0 false "" (some sv)
          { threat_cache := [tRansom, tPatch], last_fetch_time := some 0 }).1 =
         ([tRansom, tPatch] : List Threat).filter
           (fun t => pyLower (t.severity.getD "") == pyLower sv)) :=
  ⟨by decide,
   search_empty_query fetchesNone enrichNone 0 false
     { threat_cache := [tRansom, tPatch], last_fetch_time := some 0 } (by decide)⟩

/-! ## C3: CISA scraper failure behaviour -/

/-- C3 counterexample: with `limit = 1`, an exception escaping to
`fetch_threats`' outer handler returns the full two-item fallback list —
more than `limit` items, so the fallback is not truncated to `limit`; and
a failure handled inside the RSS path returns `[]`, not the (nonempty)
truncated fallback list the claim prescribes. -/
theorem cisa_fallback_untruncated_cex :
    (cisa_fetch_threats "2024-01-01T00:00:00" .hardFail 1).length = 2 ∧
    ¬ ((cisa_fetch_threats "2024-01-01T00:00:00" .hardFail 1).length ≤ 1) ∧
    cisa_fetch_threats "2024-01-01T00:00:00" .rssFailed 1 = [] ∧
    (cisa_fallback_data "2024-01-01T00:00:00").take 1 ≠ [] := by
  refine ⟨by decide, by decide, by decide, by decide⟩

/-- C3 (amended): `CISAScraper.fetch_threats` never raises, but its failure
behaviour is: an exception escaping to the outer handler returns the fixed
two-item fallback list untruncated (it may exceed `limit`); failures caught
inside the RSS/web helpers — including an empty or unparsable feed — yield
the empty list, not the fallback; only the successful RSS path is truncated
to at most `limit` items. (The CERT-IN, FBI and BleepingComputer scrapers,
by contrast, do truncate their fallback data with `[:limit]`.) -/
theorem cisa_fetch_spec :
    (∀ (now : String) (limit : Nat),
      cisa_fetch_threats now .hardFail limit = cisa_fallback_data now) ∧
    (∀ (now : String) (limit : Nat), cisa_fetch_threats now .rssFailed limit = []) ∧
    (∀ (now : String) (limit : Nat) (entries : List FeedEntry),
      (cisa_fetch_threats now (.rss entries) limit).length ≤ limit) := by
  refine ⟨fun _ _ => rfl, fun _ _ => rfl, fun now limit entries => ?_⟩
  simp only [cisa_fetch_threats]
  split
  · simp
  · simp only [List.length_map, List.length_take]
    exact Nat.min_le_left _ _

/-! ## C4: enrichment list caps and fallback IoC ordering -/

/-- C4 counterexample: `_fallback_iocs` pipes the CVE matches through
`list(set(...))`, whose enumeration order is unspecified; under the
perfectly legitimate enumeration `setListRev` (a permutation of the
distinct matches), the two CVE ids of `tCVE` come back in reversed
occurrence order, so the extractor does not return CVE matches in the
order they occur in the content. -/
theorem fallback_iocs_order_cex :
    SetListLike setListRev ∧
    cveFindall (tCVE.full_content.getD "" ++ " " ++ tCVE.title.getD "") =
      ["CVE-2024-0001", "CVE-2024-0002"] ∧
    fallback_iocs setListRev tCVE = ["CVE-2024-0002", "CVE-2024-0001"] ∧
    fallback_iocs setListRev tCVE ≠ ["CVE-2024-0001", "CVE-2024-0002"] :=
  ⟨fun xs => xs.dedup.reverse_perm, by decide, by decide, by decide⟩

/-- C4 (amended): every enrichment list stays within its cap — `iocs` at
most 10 (at most 5 on the fallback path), `affected_systems` at most 5,
`recommendations` at most 5 — whether the AI call succeeds or a fallback is
used; and the fallback IoC list contains only CVE matches found in
`full_content + ' ' + title`, but after `set`-based de-duplication whose
enumeration order is unspecified, so occurrence order is not guaranteed. -/
theorem enrichment_list_caps :
    (∀ (resp : Option String) (setList : List String → List String) (t : Threat),
      (extract_iocs resp setList t).length ≤ 10) ∧
    (∀ (resp : Option String) (t : Threat),
      (identify_affected_systems resp t).length ≤ 5) ∧
    (∀ (resp : Option String) (t : Threat),
      (generate_recommendations resp t).length ≤ 5) ∧
    (∀ setList : List String → List String, SetListLike setList →
      ∀ (t : Threat) (x : String), x ∈ fallback_iocs setList t →
        x ∈ cveFindall (t.full_content.getD "" ++ " " ++ t.title.getD "")) := by
  refine ⟨?_, ?_, ?_, ?_⟩
  · intro resp setList t
    cases resp with
    | none =>
      simp only [extract_iocs, fallback_iocs]
      exact le_trans (List.length_take_le _ _) (by omega)
    | some r =>
      simp only [extract_iocs]
      split
      · simp
      · exact List.length_take_le _ _
  · intro resp t
    cases resp with
    | none =>
      simp only [identify_affected_systems, fallback_affected_systems]
      split
      · simp
      · exact List.length_take_le _ _
    | some r =>
      simp only [identify_affected_systems]
      split
      · simp
      · exact List.length_take_le _ _
  · intro resp t
    cases resp with
    | none =>
      simp only [generate_recommendations, fallback_recommendations]
      exact List.length_take_le _ _
    | some r =>
      simp only [generate_recommendations]
      exact List.length_take_le _ _
  · intro setList hset t x hx
    simp only [fallback_iocs] at hx
    have hx' := List.mem_of_mem_take hx
    have hperm := hset (cveFindall (t.full_content.getD "" ++ " " ++ t.title.getD ""))
    exact List.mem_dedup.mp (hperm.mem_iff.mp hx')

theorem enrichment_list_caps_witness :
    SetListLike setListRev ∧
    "CVE-2024-0002" ∈ fallback_iocs setListRev tCVE ∧
    "CVE-2024-0002" ∈ cveFindall (tCVE.full_content.getD "" ++ " " ++ tCVE.title.getD "") :=
  ⟨fun xs => xs.dedup.reverse_perm, by decide,
   enrichment_list_caps.2.2.2 setListRev (fun xs => xs.dedup.reverse_perm) tCVE
     "CVE-2024-0002" (by decide)⟩
